import Mathlib

/-
  Shallow embedding of the real-time streaming monitor of the wallettrackr
  dashboard: the `Monitor` class (src/unnamed/part_004) and the
  `FastAPIAnalysisConsole` class (src/unnamed/part_005).

  Modelling conventions, fixed once here:
  * JSON values are modelled by the inductive `Json` below.  Numbers are
    modelled as integers: every numeric field appearing in the frames the
    claims mention (processed, total, percentage, ...) is an integer, and
    nothing in the embedded code branches on fractionality.
  * `JSON.parse` and `parseInt`/`parseFloat` are platform built-ins, not
    repository code; handlers therefore receive the parse outcome
    (`Except String Json`, resp. `Option Int` / `Option Rat`) as an input.
  * DOM mutations are modelled by their data content: an activity-feed entry,
    an alert-sidebar entry and a console line become records holding the
    fields the template interpolates; pure styling (CSS classes, icons,
    scrolling, modals) carries no data and is dropped.
  * A JavaScript `TypeError` thrown while a handler runs (property access on
    undefined/null, calling a string method on a non-string) is modelled by
    `Except`: the error branch carries the state as mutated up to the throw
    point, since the enclosing try/catch of `onmessage` resumes with that
    state.  Error message texts produced by the platform are stand-ins.
  * `new Date().toLocaleTimeString()` is an ambient clock; the state carries
    a field `now` holding its current rendering.
-/

/-- JSON value tree (numbers restricted to integers, see header note). -/
inductive Json where
  | null : Json
  | bool : Bool → Json
  | num : Int → Json
  | str : String → Json
  | arr : List Json → Json
  | obj : List (String × Json) → Json

/-- Field lookup in a JSON object body, first match wins. -/
def lookupField : List (String × Json) → String → Option Json
  | [], _ => none
  | (k, v) :: fs, key => if k = key then some v else lookupField fs key

/-- JavaScript property read `j.k` for a value that is not null:
objects yield the field (or undefined = `none`), every other non-null
primitive yields undefined.  Callers guard the null case separately. -/
def jPropD : Json → String → Option Json
  | Json.obj fs, key => lookupField fs key
  | _, _ => none

/-- JavaScript property read `j.k` including the throwing case:
reading a property of `null` throws a TypeError. -/
def jProp : Json → String → Except Unit (Option Json)
  | Json.null, _ => Except.error ()
  | j, key => Except.ok (jPropD j key)

/-- JavaScript property read `v.k` where `v` may be undefined (`none`):
reading a property of undefined or null throws. -/
def jGetE : Option Json → String → Except Unit (Option Json)
  | none, _ => Except.error ()
  | some Json.null, _ => Except.error ()
  | some j, key => Except.ok (jPropD j key)

/-- JavaScript truthiness of a defined value. -/
def jTruthy : Json → Bool
  | Json.null => false
  | Json.bool b => b
  | Json.num n => n != 0
  | Json.str s => s != ""
  | Json.arr _ => true
  | Json.obj _ => true

/-- JavaScript truthiness where `none` is undefined. -/
def jTruthyO : Option Json → Bool
  | none => false
  | some v => jTruthy v

mutual
/-- JavaScript string coercion as performed by template interpolation. -/
def jsToString : Json → String
  | Json.null => "null"
  | Json.bool true => "true"
  | Json.bool false => "false"
  | Json.num n => toString n
  | Json.str s => s
  | Json.arr xs => jsArrToString xs
  | Json.obj _ => "[object Object]"

/-- Array.prototype.toString: elements joined by commas, null rendered empty. -/
def jsArrToString : List Json → String
  | [] => ""
  | [Json.null] => ""
  | [x] => jsToString x
  | Json.null :: xs => "," ++ jsArrToString xs
  | x :: xs => jsToString x ++ "," ++ jsArrToString xs
end

/-- Interpolation of a possibly-undefined value. -/
def jsToStringO : Option Json → String
  | none => "undefined"
  | some v => jsToString v

/-- The two brace characters, named once. -/
def lbrace : String := "\x7b"

def rbrace : String := "\x7d"

/-- Minimal JSON string escaping (quote and backslash). -/
def escapeString (s : String) : String :=
  String.join (s.data.map fun c =>
    if c = '"' then "\\\"" else if c = '\\' then "\\\\" else String.singleton c)

mutual
/-- JSON.stringify on the modelled value tree (compact form, insertion order). -/
def stringify : Json → String
  | Json.null => "null"
  | Json.bool true => "true"
  | Json.bool false => "false"
  | Json.num n => toString n
  | Json.str s => "\"" ++ escapeString s ++ "\""
  | Json.arr xs => "[" ++ stringifyArr xs ++ "]"
  | Json.obj fs => lbrace ++ stringifyFields fs ++ rbrace

def stringifyArr : List Json → String
  | [] => ""
  | [x] => stringify x
  | x :: xs => stringify x ++ "," ++ stringifyArr xs

def stringifyFields : List (String × Json) → String
  | [] => ""
  | [(k, v)] => "\"" ++ escapeString k ++ "\":" ++ stringify v
  | (k, v) :: fs => "\"" ++ escapeString k ++ "\":" ++ stringify v ++ "," ++ stringifyFields fs
end

/-
  ## Monitor (src/unnamed/part_004)
-/

/-- Rendered entry of the activity feed (the data interpolated into the
activity-item template of `Monitor.addActivityItem`). -/
structure ActivityItem where
  message : String
  itemType : String
  detailsLine : Option String
  hashLink : Option String
  timestamp : String
deriving DecidableEq, Repr

/-- Rendered entry of the alert sidebar (`Monitor.addAlertToSidebar`). -/
structure AlertItem where
  title : String
  message : String
  priority : String
  timestamp : String
deriving DecidableEq, Repr

/-- The optional `details` argument object of `addActivityItem`. -/
structure ActivityDetails where
  details : Option Json := none
  hash : Option Json := none
  wallet : Option Json := none
  timestamp : Option Json := none

/-- State of one `Monitor` instance.  `eventSource` models whether
`this.eventSource` holds a live EventSource; `pendingReconnects` models the
reconnect `setTimeout` callbacks scheduled but not yet fired, in FIFO order,
each carrying its delay in milliseconds (the source never stores the timer
id, so nothing can clear them).  `reconnectEntries` and `failedEntries` are
history counters for the two branches of the `onerror` handler; they are
written by no branch condition and exist only so theorems can count
transitions. -/
structure MonitorState where
  eventSource : Bool
  isConnected : Bool
  reconnectAttempts : Nat
  maxReconnectAttempts : Nat
  reconnectDelay : Nat
  activityFeed : List ActivityItem
  activityCount : Nat
  alertFeed : List AlertItem
  alertCount : Nat
  pendingReconnects : List Nat
  now : String
  reconnectEntries : Nat
  failedEntries : Nat
deriving DecidableEq, Repr

/-- The `Monitor` constructor. -/
def initialMonitor (now : String) : MonitorState :=
  { eventSource := false
    isConnected := false
    reconnectAttempts := 0
    maxReconnectAttempts := 5
    reconnectDelay := 1000
    activityFeed := []
    activityCount := 0
    alertFeed := []
    alertCount := 0
    pendingReconnects := []
    now := now
    reconnectEntries := 0
    failedEntries := 0 }

/-- The activity-item record built by `addActivityItem` from its arguments:
timestamp falls back to the clock, the details line and the Etherscan link
are rendered only when truthy. -/
def mkActivityItem (message itemType : String) (d : ActivityDetails)
    (s : MonitorState) : ActivityItem :=
  { message := message
    itemType := itemType
    detailsLine := if jTruthyO d.details then some (jsToStringO d.details) else none
    hashLink := if jTruthyO d.hash then some (jsToStringO d.hash) else none
    timestamp := if jTruthyO d.timestamp then jsToStringO d.timestamp else s.now }

/-- Feed insertion of `addActivityItem`: prepend, then trim the items past
index 100 (`items.slice(100).remove()` keeps the first 100). -/
def pushActivityItem (item : ActivityItem) (s : MonitorState) : MonitorState :=
  { s with activityFeed := List.take 100 (item :: s.activityFeed)
           activityCount := s.activityCount + 1 }

/-- `Monitor.addActivityItem(message, type = 'info', details = {})`. -/
def addActivityItem (message itemType : String) (d : ActivityDetails)
    (s : MonitorState) : MonitorState :=
  pushActivityItem (mkActivityItem message itemType d s) s

/-- The sidebar record built by `addAlertToSidebar`; `none` when building the
template throws (`alert.priority.charAt` is only defined when the priority is
a string; reading properties of an undefined or null `alert` throws too). -/
def mkAlertItem (alert : Json) (s : MonitorState) : Option AlertItem :=
  match jProp alert "title", jProp alert "message", jProp alert "priority" with
  | Except.ok titleV, Except.ok msgV, Except.ok (some (Json.str p)) =>
      some { title := if jTruthyO titleV then jsToStringO titleV else "Alert"
             message := jsToStringO msgV
             priority := p
             timestamp := s.now }
  | _, _, _ => none

/-- Feed insertion of `addAlertToSidebar`: prepend, then trim the alerts past
index 50. -/
def pushAlertItem (item : AlertItem) (s : MonitorState) : MonitorState :=
  { s with alertFeed := List.take 50 (item :: s.alertFeed)
           alertCount := s.alertCount + 1 }

/-- `Monitor.addAlertToSidebar(alert)`; the error branch models the thrown
TypeError (nothing is prepended, the throw happens while the template string
is still being built). -/
def addAlertToSidebar (alert : Json) (s : MonitorState) :
    Except MonitorState MonitorState :=
  match mkAlertItem alert s with
  | some item => Except.ok (pushAlertItem item s)
  | none => Except.error s

/-- `Monitor.handleTransactionData`.  `updateMonitoredWalletRow` touches only
a table row outside the feeds and is dropped.  A non-string `wallet` throws at
`wallet.substring`; a missing or null `transaction` throws at
`transaction.value`, all before the activity item is prepended. -/
def handleTransactionData (data : Json) (s : MonitorState) :
    Except MonitorState MonitorState :=
  let transaction := jPropD data "transaction"
  let wallet := jPropD data "wallet"
  match wallet with
  | some (Json.str w) =>
      match jGetE transaction "value", jGetE transaction "type",
            jGetE transaction "hash" with
      | Except.ok tv, Except.ok tt, Except.ok th =>
          Except.ok (addActivityItem
            ("New transaction detected for " ++ w.take 10 ++ "...") "info"
            { details := some (Json.str (jsToStringO tv ++ " ETH - " ++ jsToStringO tt))
              hash := th
              timestamp := jPropD data "timestamp" } s)
      | _, _, _ => Except.error s
  | _ => Except.error s

/-- `Monitor.handleAlertData`: one activity item (typed by the alert
priority, with the JavaScript default `info` when the priority is undefined),
then the sidebar insertion; a throw inside `addAlertToSidebar` still keeps
the already-prepended activity item. -/
def handleAlertData (data : Json) (s : MonitorState) :
    Except MonitorState MonitorState :=
  let alert := jPropD data "alert"
  match jGetE alert "message", jGetE alert "priority", jGetE alert "wallet",
        jGetE alert "details" with
  | Except.ok m, Except.ok pr, Except.ok w, Except.ok d =>
      let itemType := match pr with
        | none => "info"
        | some v => jsToString v
      let s1 := addActivityItem (jsToStringO m) itemType
        { wallet := w, details := d, timestamp := jPropD data "timestamp" } s
      match alert with
      | some alertJ => addAlertToSidebar alertJ s1
      | none => Except.error s1
  | _, _, _, _ => Except.error s

/-- `Monitor.handleWalletUpdate`; `wallet.address` must be a string for
`substring`, and reading it throws when `wallet` is undefined or null. -/
def handleWalletUpdate (data : Json) (s : MonitorState) :
    Except MonitorState MonitorState :=
  let wallet := jPropD data "wallet"
  match jGetE wallet "address", jGetE wallet "balance" with
  | Except.ok (some (Json.str addr)), Except.ok bal =>
      Except.ok (addActivityItem
        ("Wallet " ++ addr.take 10 ++ "... updated") "info"
        { details := some (Json.str ("Balance: " ++ jsToStringO bal ++ " ETH"))
          timestamp := jPropD data "timestamp" } s)
  | _, _ => Except.error s

/-- `Monitor.handleSystemMessage`. -/
def handleSystemMessage (data : Json) (s : MonitorState) : MonitorState :=
  addActivityItem (jsToStringO (jPropD data "message")) "info"
    { timestamp := jPropD data "timestamp" } s

/-- `Monitor.handleSSEData`: the switch on `data.type`.  The default branch
only calls `console.log` and pushes nothing.  Reading `data.type` throws when
the parsed frame is `null`. -/
def handleSSEData (data : Json) (s : MonitorState) :
    Except MonitorState MonitorState :=
  match jProp data "type" with
  | Except.error _ => Except.error s
  | Except.ok t =>
      match t with
      | some (Json.str tag) =>
          if tag = "transaction" then handleTransactionData data s
          else if tag = "alert" then handleAlertData data s
          else if tag = "wallet_update" then handleWalletUpdate data s
          else if tag = "system" then Except.ok (handleSystemMessage data s)
          else Except.ok s
      | _ => Except.ok s

/-- `ReconnectPolicy.delayFor` as implemented at the `setTimeout` call:
`this.reconnectDelay * this.reconnectAttempts`, with the attempt already
incremented (counted from 1). -/
def delayFor (attempt baseDelay : Nat) : Nat := baseDelay * attempt

/-- `Monitor.connectToSSE` up to the point where the handlers are installed:
any previous EventSource is closed, a fresh one is stored.  The open, message
and error callbacks become the signals below. -/
def connectToSSE (s : MonitorState) : MonitorState :=
  { s with eventSource := true }

/-- The `onopen` handler. -/
def onOpenStep (s : MonitorState) : MonitorState :=
  addActivityItem "Connected to real-time feed" "success" {}
    { s with isConnected := true, reconnectAttempts := 0 }

/-- The `onerror` handler: below the cap it increments the attempt counter,
pushes the warning item and schedules `connectToSSE` after
`delayFor(attempt, reconnectDelay)`; at the cap it only pushes the error
item.  `disconnectSSE` never cancels the scheduled timeout. -/
def onErrorStep (s : MonitorState) : MonitorState :=
  let s0 := { s with isConnected := false }
  if s0.reconnectAttempts < s0.maxReconnectAttempts then
    let a := s0.reconnectAttempts + 1
    let s1 := { s0 with reconnectAttempts := a
                        reconnectEntries := s0.reconnectEntries + 1 }
    let s2 := addActivityItem
      ("Connection lost. Reconnecting... (" ++ toString a ++ "/" ++
        toString s1.maxReconnectAttempts ++ ")") "warning" {} s1
    { s2 with pendingReconnects :=
        s2.pendingReconnects ++ [delayFor a s2.reconnectDelay] }
  else
    let s1 := { s0 with failedEntries := s0.failedEntries + 1 }
    addActivityItem "Connection failed. Please refresh the page." "error" {} s1

/-- The `onmessage` handler: parse outcome of `JSON.parse(event.data)` plus
`handleSSEData`, wrapped in try/catch whose catch only calls
`console.error`. -/
def onMessageStep (parsed : Except String Json) (s : MonitorState) :
    MonitorState :=
  match parsed with
  | Except.error _ => s
  | Except.ok data =>
      match handleSSEData data s with
      | Except.ok s1 => s1
      | Except.error s1 => s1

/-- A scheduled reconnect timeout fires: the callback runs `connectToSSE`.
The timers fire in the order they were scheduled. -/
def timerFireStep (s : MonitorState) : MonitorState :=
  connectToSSE { s with pendingReconnects := s.pendingReconnects.tail }

/-- `Monitor.disconnectSSE`: close and null the EventSource, clear the
connected flag, push the disconnect warning.  The pending reconnect timeouts
are untouched (the source keeps no handle to them). -/
def disconnectSSE (s : MonitorState) : MonitorState :=
  addActivityItem "Disconnected from real-time feed" "warning" {}
    { s with eventSource := false, isConnected := false }

/-- `Monitor.clearActivityFeed`. -/
def clearActivityFeed (s : MonitorState) : MonitorState :=
  { s with activityFeed := [], activityCount := 0 }

/-- External signals driving one monitor instance. -/
inductive MSignal where
  | connect : MSignal
  | onOpen : MSignal
  | onMessage : Except String Json → MSignal
  | onError : MSignal
  | timerFire : MSignal
  | stop : MSignal

/-- One step of the monitor. -/
def step (s : MonitorState) : MSignal → MonitorState
  | MSignal.connect => connectToSSE s
  | MSignal.onOpen => onOpenStep s
  | MSignal.onMessage p => onMessageStep p s
  | MSignal.onError => onErrorStep s
  | MSignal.timerFire => timerFireStep s
  | MSignal.stop => disconnectSSE s

/-- Run a sequence of signals. -/
def run (s : MonitorState) (sigs : List MSignal) : MonitorState :=
  sigs.foldl step s

/-- The ConnectionState vocabulary of the specification, derived from the
observable fields of the implementation state. -/
inductive ConnState where
  | Idle : ConnState
  | Connecting : ConnState
  | Open : ConnState
  | Reconnecting : ConnState
  | Failed : ConnState
deriving DecidableEq, Repr

/-- Mapping of an implementation state onto the ConnectionState enum of the
specification: Open while connected, Reconnecting while a reconnect timeout
is pending, Failed once the exhausted branch of `onerror` has run with no
retry pending, Connecting while an EventSource exists but is not open. -/
def connState (s : MonitorState) : ConnState :=
  if s.isConnected then ConnState.Open
  else if !s.pendingReconnects.isEmpty then ConnState.Reconnecting
  else if s.failedEntries != 0 then ConnState.Failed
  else if s.eventSource then ConnState.Connecting
  else ConnState.Idle

/-
  ## FastAPIAnalysisConsole (src/unnamed/part_005)
-/

/-- One console line: the `className` keeps the raw log type, the innerHTML
interpolates a timestamp and the message (separators render as a bare
spacer with no timestamp). -/
structure ConsoleLine where
  message : String
  lineType : String
  timestamp : Option String
deriving DecidableEq, Repr

/-- State of one `FastAPIAnalysisConsole` instance. -/
structure ConsoleState where
  lines : List ConsoleLine
  isRunning : Bool
  eventSource : Bool
  now : String
deriving DecidableEq, Repr

/-- Console state right after the constructor ran `init` (the two ready
banners are already logged). -/
def initialConsole (now : String) : ConsoleState :=
  { lines :=
      [ { message := "💡 FastAPI Analysis Console Ready", lineType := "info", timestamp := some now }
      , { message := "📡 Select network and parameters, then click \"Run Analysis\"", lineType := "info", timestamp := some now } ]
    isRunning := false
    eventSource := false
    now := now }

/-- `FastAPIAnalysisConsole.log(message, type = 'info')`: append one line;
when more than 500 lines accumulate, the oldest 100 are removed. -/
def conLog (message lineType : String) (c : ConsoleState) : ConsoleState :=
  let line : ConsoleLine :=
    if lineType = "separator" then { message := "", lineType := lineType, timestamp := none }
    else { message := message, lineType := lineType, timestamp := some c.now }
  let ls := c.lines ++ [line]
  { c with lines := if 500 < ls.length then ls.drop 100 else ls }

/-- `FastAPIAnalysisConsole.setRunning(running)`: the button label and the
disabled flags of the four inputs mirror this boolean. -/
def setRunning (b : Bool) (c : ConsoleState) : ConsoleState :=
  { c with isRunning := b }

/-- `FastAPIAnalysisConsole.stopAnalysis`. -/
def stopAnalysis (c : ConsoleState) : ConsoleState :=
  conLog "🛑 Analysis stopped by user" "warning"
    (setRunning false { c with eventSource := false })

/-- `FastAPIAnalysisConsole.clearConsole`. -/
def clearConsole (c : ConsoleState) : ConsoleState :=
  conLog "🧹 Console cleared" "info" { c with lines := [] }

/-- Rendering of `Number.prototype.toFixed` on the integral numbers of the
model. -/
def intToFixed (n : Int) (digits : Nat) : String :=
  toString n ++ "." ++ String.mk (List.replicate digits '0')

/-- The pattern `value?.toFixed(d) || alt`: undefined and null fall through
to the alternative, a number formats, anything else throws. -/
def jToFixed (v : Option Json) (digits : Nat) (alt : String) :
    Except Unit String :=
  match v with
  | none => Except.ok alt
  | some Json.null => Except.ok alt
  | some (Json.num n) => Except.ok (intToFixed n digits)
  | some _ => Except.error ()

/-- The pattern `${value || 0}`. -/
def jOrZero (v : Option Json) : String :=
  if jTruthyO v then jsToStringO v else "0"

/-- The pattern `${value?.toUpperCase()}`: undefined and null interpolate as
the text `undefined`, a string upcases, anything else throws. -/
def jUpper (v : Option Json) : Except Unit String :=
  match v with
  | none => Except.ok "undefined"
  | some Json.null => Except.ok "undefined"
  | some (Json.str s) => Except.ok s.toUpper
  | some _ => Except.error ()

/-- Strict string equality test `value === lit` against a string literal. -/
def isStrVal (v : Option Json) (lit : String) : Bool :=
  match v with
  | some (Json.str s) => s = lit
  | _ => false

/-- The guard `value?.length > 0` (arrays and strings have a length). -/
def jsLenPos (v : Option Json) : Bool :=
  match v with
  | some (Json.arr xs) => 0 < xs.length
  | some (Json.str s) => 0 < s.length
  | _ => false

/-- `Array.prototype.join(sep)`: null elements render empty. -/
def jsJoin (xs : List Json) (sep : String) : String :=
  String.intercalate sep (xs.map fun v =>
    match v with
    | Json.null => ""
    | v => jsToString v)

/-- Body of the `top_tokens.slice(0, 10).forEach` callback in
`displayResults`, for one token. -/
def displayToken (isBuy : Bool) (token : Json) (c : ConsoleState) :
    Except (ConsoleState × String) ConsoleState :=
  match (if isBuy then jProp token "enhanced_alpha_score" else jProp token "sell_score"),
        (if isBuy then jProp token "total_eth_spent" else jProp token "total_estimated_eth") with
  | Except.ok score, Except.ok ethValue =>
      let c1 := conLog (jsToStringO (jPropD token "rank") ++ ". " ++
        jsToStringO (jPropD token "token")) "token" c
      match jToFixed score 1 "0.0", jToFixed ethValue 4 "0.0000" with
      | Except.ok sf, Except.ok ef =>
          let c2 := conLog ("   Score: " ++ sf ++ " | Wallets: " ++
            jOrZero (jPropD token "wallet_count") ++ " | ETH: " ++ ef)
            "token-detail" c1
          let platforms := jPropD token "platforms"
          match (if jsLenPos platforms then
                   match platforms with
                   | some (Json.arr xs) =>
                       Except.ok (conLog ("   Platforms: " ++ jsJoin xs ", ")
                         "token-detail" c2)
                   | _ => Except.error (c2, "token.platforms.join is not a function")
                 else Except.ok c2) with
          | Except.ok c3 =>
              if jTruthyO (jPropD token "is_base_native") then
                Except.ok (conLog "   🔷 Base Native Token" "token-detail" c3)
              else Except.ok c3
          | Except.error e => Except.error e
      | Except.ok _, Except.error _ =>
          Except.error (c1, "ethValue.toFixed is not a function")
      | Except.error _, _ =>
          Except.error (c1, "score.toFixed is not a function")
  | _, _ =>
      Except.error (c, "cannot read properties of null reading score")

/-- Sequential `forEach` over the shown tokens. -/
def displayTokenList (isBuy : Bool) (toks : List Json) (c : ConsoleState) :
    Except (ConsoleState × String) ConsoleState :=
  match toks with
  | [] => Except.ok c
  | t :: ts =>
      match displayToken isBuy t c with
      | Except.ok c1 => displayTokenList isBuy ts c1
      | Except.error e => Except.error e

/-- `FastAPIAnalysisConsole.displayResults(results)`. -/
def displayResults (results : Option Json) (c : ConsoleState) :
    Except (ConsoleState × String) ConsoleState :=
  if !jTruthyO results then
    Except.ok (conLog "⚠️ No results data received" "warning" c)
  else
    let j := results.getD Json.null
    let c1 := conLog "" "separator" c
    let c2 := conLog "📊 ANALYSIS RESULTS" "header" c1
    let c3 := conLog "" "separator" c2
    match jUpper (jPropD j "network") with
    | Except.error _ => Except.error (c3, "network.toUpperCase is not a function")
    | Except.ok net =>
        let c4 := conLog ("🌐 Network: " ++ net) "info" c3
        match jUpper (jPropD j "analysis_type") with
        | Except.error _ =>
            Except.error (c4, "analysis_type.toUpperCase is not a function")
        | Except.ok aty =>
            let c5 := conLog ("📈 Type: " ++ aty) "info" c4
            let isBuy := isStrVal (jPropD j "analysis_type") "buy"
            match (if isBuy then
                     let c6 := conLog ("💰 Total Purchases: " ++
                       jOrZero (jPropD j "total_purchases")) "info" c5
                     match jToFixed (jPropD j "total_eth_spent") 4 "0.0000" with
                     | Except.ok f =>
                         Except.ok (conLog ("💎 ETH Spent: " ++ f ++ " ETH") "info" c6)
                     | Except.error _ =>
                         Except.error (c6, "total_eth_spent.toFixed is not a function")
                   else
                     let c6 := conLog ("📉 Total Sells: " ++
                       jOrZero (jPropD j "total_sells")) "info" c5
                     match jToFixed (jPropD j "total_estimated_eth") 4 "0.0000" with
                     | Except.ok f =>
                         Except.ok (conLog ("💰 ETH Value: " ++ f ++ " ETH") "info" c6)
                     | Except.error _ =>
                         Except.error (c6, "total_estimated_eth.toFixed is not a function")) with
            | Except.error e => Except.error e
            | Except.ok c7 =>
                let c8 := conLog ("🪙 Unique Tokens: " ++
                  jOrZero (jPropD j "unique_tokens")) "info" c7
                match jToFixed (jPropD j "analysis_time_seconds") 2 "0" with
                | Except.error _ =>
                    Except.error (c8, "analysis_time_seconds.toFixed is not a function")
                | Except.ok tf =>
                    let c9 := conLog ("⏱️ Analysis Time: " ++ tf ++ "s") "info" c8
                    let c10 := if jTruthyO (jPropD j "from_cache") then
                        conLog "📋 Source: Cached (fast)" "cache" c9
                      else conLog "🔄 Source: Fresh analysis" "info" c9
                    let c11 := if jTruthyO (jPropD j "orjson_enabled") then
                        conLog "⚡ JSON Optimization: orjson enabled" "info" c10
                      else c10
                    let topTokens := jPropD j "top_tokens"
                    match (if jTruthyO topTokens && jsLenPos topTokens then
                             let c12 := conLog "" "separator" c11
                             let c13 := conLog "🏆 TOP TOKENS" "header" c12
                             let c14 := conLog "" "separator" c13
                             match topTokens with
                             | some (Json.arr xs) =>
                                 displayTokenList isBuy (xs.take 10) c14
                             | _ =>
                                 Except.error (c14, "top_tokens.slice is not a function")
                           else
                             Except.ok (conLog "⚠️ No tokens found in analysis"
                               "warning" c11)) with
                    | Except.error e => Except.error e
                    | Except.ok c15 =>
                        let c16 := conLog "" "separator" c15
                        Except.ok (conLog "✅ Analysis display complete" "success" c16)

/-- The `progress` case of `handleStreamData`: up to three lines, each behind
its own guard; a truthy non-string `wallet_address` throws at `substring`
after the first two lines already appended. -/
def conProgress (data : Json) (c : ConsoleState) :
    Except (ConsoleState × String) ConsoleState :=
  let msg := jPropD data "message"
  let processed := jPropD data "processed"
  let total := jPropD data "total"
  let percentage := jPropD data "percentage"
  let c1 := if jTruthyO msg then
      conLog ("⏳ " ++ jsToStringO msg) "info" c
    else c
  let c2 := if processed.isSome && total.isSome then
      conLog ("📊 Progress: " ++ jsToStringO processed ++ "/" ++
        jsToStringO total ++ " (" ++
        (if jTruthyO percentage then jsToStringO percentage else "0") ++ "%)")
        "progress" c1
    else c1
  match jPropD data "wallet_address" with
  | some (Json.str w) =>
      if w = "" then Except.ok c2
      else
        Except.ok (conLog ("🔍 Processing: " ++ w.take 8 ++ "... (" ++
          (if jTruthyO (jPropD data "purchases_found") then
            jsToStringO (jPropD data "purchases_found") else "0") ++
          " purchases)") "debug" c2)
  | some v =>
      if jTruthy v then
        Except.error (c2, "wallet_address.substring is not a function")
      else Except.ok c2
  | none => Except.ok c2

/-- `FastAPIAnalysisConsole.handleStreamData(data)`: the switch on
`data.type`; the default branch logs the whole frame, stringified, at debug.
Reading `data.type` (via destructuring) throws when the frame is `null`. -/
def handleStreamData (data : Json) (c : ConsoleState) :
    Except (ConsoleState × String) ConsoleState :=
  match jProp data "type" with
  | Except.error _ =>
      Except.error (c, "cannot destructure a null frame")
  | Except.ok t =>
      match t with
      | some (Json.str tag) =>
          if tag = "progress" then conProgress data c
          else if tag = "results" then
            let c1 := conLog "📋 Analysis complete! Processing results..."
              "success" c
            displayResults (jPropD data "data") c1
          else if tag = "complete" then
            Except.ok (setRunning false
              (conLog "✅ Analysis finished successfully" "success" c))
          else if tag = "error" then
            Except.ok (setRunning false
              (conLog ("❌ Error: " ++
                (if jTruthyO (jPropD data "error") then
                  jsToStringO (jPropD data "error") else "Unknown error"))
                "error" c))
          else
            Except.ok (conLog ("📡 Received: " ++ stringify data) "debug" c)
      | _ => Except.ok (conLog ("📡 Received: " ++ stringify data) "debug" c)

/-- The console `onmessage` handler: `JSON.parse` plus `handleStreamData`
inside try/catch; the catch logs the error message at error severity, over
the state as mutated up to the throw. -/
def conOnMessage (parsed : Except String Json) (c : ConsoleState) :
    ConsoleState :=
  match parsed with
  | Except.error msg => conLog ("❌ Parse error: " ++ msg) "error" c
  | Except.ok data =>
      match handleStreamData data c with
      | Except.ok c1 => c1
      | Except.error (c1, msg) => conLog ("❌ Parse error: " ++ msg) "error" c1

/-- The console `onopen` handler. -/
def conOnOpen (c : ConsoleState) : ConsoleState :=
  conLog "✅ Connected to analysis stream" "success" c

/-- The console `onerror` handler: logs and clears the running flag; it
neither closes the EventSource nor schedules any retry. -/
def conOnError (c : ConsoleState) : ConsoleState :=
  setRunning false (conLog "❌ Stream connection error" "error" c)

/-- The comparison `parseInt(w) < b` (resp. `b < parseInt(w)`): a failed
parse yields NaN whose comparisons are all false, so `none` never
satisfies a bound. -/
def numLtI : Option Int → Int → Bool
  | none, _ => false
  | some n, b => n < b

def numGtI : Option Int → Int → Bool
  | none, _ => false
  | some n, b => b < n

/-- The same comparisons for `parseFloat(d)`, over the rationals. -/
def numLtQ : Option Rat → Rat → Bool
  | none, _ => false
  | some q, b => q < b

def numGtQ : Option Rat → Rat → Bool
  | none, _ => false
  | some q, b => b < q

/-- `FastAPIAnalysisConsole.startAnalysis()`.  The raw input strings
`wallets` and `days` are interpolated into the log lines and the stream URL;
`wi` and `df` are the platform outcomes of `parseInt(wallets)` and
`parseFloat(days)` (`none` = NaN).  When already running the call forwards
to `stopAnalysis` and returns. -/
def startAnalysis (network wallets days analysisType : String)
    (wi : Option Int) (df : Option Rat) (c : ConsoleState) : ConsoleState :=
  if c.isRunning then stopAnalysis c
  else if numLtI wi 1 || numGtI wi 500 then
    conLog "❌ Wallets must be between 1 and 500" "error" c
  else if numLtQ df (1/10) || numGtQ df 7 then
    conLog "❌ Days must be between 0.1 and 7.0" "error" c
  else
    let c1 := conLog ("🚀 Starting " ++ analysisType ++ " analysis for " ++
      network ++ "...") "info" c
    let c2 := conLog ("📊 Parameters: " ++ wallets ++ " wallets, " ++ days ++
      " days") "info" c1
    let c3 := setRunning true c2
    let streamUrl := "/api/" ++ network ++ "/" ++ analysisType ++
      "/stream?wallets=" ++ wallets ++ "&days=" ++ days ++ "&use_cache=true"
    let c4 := conLog ("📡 Connecting to: " ++ streamUrl) "debug" c3
    { c4 with eventSource := true }

/-
  ## Helper functions and lemmas shared by the theorems
-/

/-- State reached by a monitor handler, whether it returned or threw. -/
def stateOfM : Except MonitorState MonitorState → MonitorState
  | Except.ok s => s
  | Except.error s => s

/-- Did the monitor handler return without throwing? -/
def isOkM : Except MonitorState MonitorState → Bool
  | Except.ok _ => true
  | Except.error _ => false

/-- State reached by a console handler, whether it returned or threw. -/
def stateOfC : Except (ConsoleState × String) ConsoleState → ConsoleState
  | Except.ok c => c
  | Except.error (c, _) => c

/-- Did the console handler return without throwing? -/
def isOkC : Except (ConsoleState × String) ConsoleState → Bool
  | Except.ok _ => true
  | Except.error _ => false

/-- Signals a transport failure episode can consist of: errors and the
reconnect timeouts they schedule. -/
def isErrSig : MSignal → Bool
  | MSignal.onError => true
  | MSignal.timerFire => true
  | _ => false

lemma headq_take_cons {α : Type} (x : α) (l : List α) (n : Nat) (h : 0 < n) :
    (List.take n (x :: l)).head? = some x := by
  cases n with
  | zero => exact absurd h (by omega)
  | succ m => rw [List.take_succ_cons]; rfl

lemma conLog_getLast (m t : String) (c : ConsoleState) (h : t ≠ "separator") :
    (conLog m t c).lines.getLast? =
      some { message := m, lineType := t, timestamp := some c.now } := by
  unfold conLog
  rw [if_neg h]
  dsimp only
  split
  case isTrue hlen =>
    have h100 : 100 ≤ c.lines.length := by
      simp [List.length_append] at hlen
      omega
    rw [List.drop_append_of_le_length h100]
    exact List.getLast?_concat _
  case isFalse _ => exact List.getLast?_concat _

lemma onErrorStep_attempts (s : MonitorState) :
    (onErrorStep s).maxReconnectAttempts = s.maxReconnectAttempts ∧
    (onErrorStep s).reconnectAttempts =
      (if s.reconnectAttempts < s.maxReconnectAttempts then
        s.reconnectAttempts + 1 else s.reconnectAttempts) := by
  by_cases h1 : s.reconnectAttempts < s.maxReconnectAttempts <;>
    simp [onErrorStep, addActivityItem, pushActivityItem, h1]

lemma run_err_attempts (sigs : List MSignal) :
    ∀ s : MonitorState, (∀ x ∈ sigs, isErrSig x = true) →
      s.reconnectAttempts ≤ s.maxReconnectAttempts →
      (run s sigs).reconnectAttempts ≤ (run s sigs).maxReconnectAttempts := by
  induction sigs with
  | nil => intro s _ h; exact h
  | cons x xs ih =>
      intro s hmem h
      have hx := hmem x (List.mem_cons_self x xs)
      have hxs : ∀ y ∈ xs, isErrSig y = true :=
        fun y hy => hmem y (List.mem_cons_of_mem x hy)
      have hrun : run s (x :: xs) = run (step s x) xs := rfl
      rw [hrun]
      apply ih (step s x) hxs
      cases x with
      | onError =>
          have ha := onErrorStep_attempts s
          show (onErrorStep s).reconnectAttempts ≤ (onErrorStep s).maxReconnectAttempts
          rw [ha.1, ha.2]
          split <;> omega
      | timerFire => exact h
      | connect => exact absurd hx (by simp [isErrSig])
      | onOpen => exact absurd hx (by simp [isErrSig])
      | onMessage p => exact absurd hx (by simp [isErrSig])
      | stop => exact absurd hx (by simp [isErrSig])

/-
  ## Claim theorems
-/

/-- C4: for every attempt >= 1 and every base delay, `delayFor` is
`baseDelay * attempt` (exactly the expression at the reconnect `setTimeout`,
whose scheduled delay the last conjunct exhibits), so `delayFor 1 d = d` and
`delayFor` is monotonically non-decreasing in the attempt for a fixed base
delay. -/
theorem C4_delayFor_linear (attempt d : Nat) (h : 1 ≤ attempt) :
    delayFor attempt d = d * attempt ∧
    delayFor 1 d = d ∧
    (∀ a1 a2 : Nat, a1 ≤ a2 → delayFor a1 d ≤ delayFor a2 d) ∧
    (∀ s : MonitorState, s.reconnectAttempts < s.maxReconnectAttempts →
      (onErrorStep s).pendingReconnects =
        s.pendingReconnects ++ [delayFor (s.reconnectAttempts + 1) s.reconnectDelay]) := by
  refine ⟨rfl, by simp [delayFor], fun a1 a2 hle => Nat.mul_le_mul_left d hle, ?_⟩
  intro s hs
  simp [onErrorStep, addActivityItem, pushActivityItem, hs]

/-- Witness for C4 at attempt 2 and the default base delay 1000. -/
theorem C4_delayFor_linear_w :
    delayFor 2 1000 = 1000 * 2 ∧
    delayFor 1 1000 = 1000 ∧
    (∀ a1 a2 : Nat, a1 ≤ a2 → delayFor a1 1000 ≤ delayFor a2 1000) ∧
    (∀ s : MonitorState, s.reconnectAttempts < s.maxReconnectAttempts →
      (onErrorStep s).pendingReconnects =
        s.pendingReconnects ++ [delayFor (s.reconnectAttempts + 1) s.reconnectDelay]) :=
  C4_delayFor_linear 2 1000 (by decide)

/-- The alert frame of the specification scenario, used as the C3 witness
input. -/
def c3Frame : Json :=
  Json.obj [("priority", Json.str "high"), ("message", Json.str "Large buy detected")]

/-- The sidebar record `addAlertToSidebar` builds from `c3Frame`. -/
def c3Item : AlertItem :=
  { title := "Alert", message := "Large buy detected", priority := "high",
    timestamp := "t0" }

/-- C3: after any `addActivityItem` the activity feed holds at most 100
records and its first element is the record just built (so the newest push is
never evicted by its own insertion), and after any successful
`addAlertToSidebar` the alert sidebar holds at most 50 records with the new
record first. -/
theorem C3_bounded_feeds (s : MonitorState) (m t : String) (d : ActivityDetails)
    (a : Json) (item : AlertItem) (h : mkAlertItem a s = some item) :
    (addActivityItem m t d s).activityFeed.length ≤ 100 ∧
    (addActivityItem m t d s).activityFeed.head? = some (mkActivityItem m t d s) ∧
    addAlertToSidebar a s = Except.ok (pushAlertItem item s) ∧
    (pushAlertItem item s).alertFeed.length ≤ 50 ∧
    (pushAlertItem item s).alertFeed.head? = some item := by
  refine ⟨?_, ?_, ?_, ?_, ?_⟩
  · simpa [addActivityItem, pushActivityItem] using
      List.length_take_le 100 (mkActivityItem m t d s :: s.activityFeed)
  · exact headq_take_cons _ _ _ (by omega)
  · unfold addAlertToSidebar
    rw [h]
  · simpa [pushAlertItem] using List.length_take_le 50 (item :: s.alertFeed)
  · exact headq_take_cons _ _ _ (by omega)

/-- Witness for C3 on the scenario alert frame against a fresh monitor. -/
theorem C3_bounded_feeds_w :
    (addActivityItem "x" "info" {} (initialMonitor "t0")).activityFeed.length ≤ 100 ∧
    (addActivityItem "x" "info" {} (initialMonitor "t0")).activityFeed.head? =
      some (mkActivityItem "x" "info" {} (initialMonitor "t0")) ∧
    addAlertToSidebar c3Frame (initialMonitor "t0") =
      Except.ok (pushAlertItem c3Item (initialMonitor "t0")) ∧
    (pushAlertItem c3Item (initialMonitor "t0")).alertFeed.length ≤ 50 ∧
    (pushAlertItem c3Item (initialMonitor "t0")).alertFeed.head? = some c3Item :=
  C3_bounded_feeds (initialMonitor "t0") "x" "info" {} c3Frame c3Item (by decide)

/-- Five consecutive `onerror` signals, each reconnect timeout the code
itself schedules firing in between, with no intervening `onopen`. -/
def c1Errors5 : List MSignal :=
  [MSignal.onError, MSignal.timerFire, MSignal.onError, MSignal.timerFire,
   MSignal.onError, MSignal.timerFire, MSignal.onError, MSignal.timerFire,
   MSignal.onError]

/-- C1 counterexample: after five consecutive `onerror` signals with
`maxReconnectAttempts = 5` the monitor has entered the reconnect branch five
times, not four, and is still Reconnecting, not Failed: the guard
`reconnectAttempts < maxReconnectAttempts` admits attempts 1 through 5 and
only the sixth failure exhausts the cap. -/
theorem C1_counterexample :
    (run (connectToSSE (initialMonitor "t0")) c1Errors5).reconnectEntries = 5 ∧
    connState (run (connectToSSE (initialMonitor "t0")) c1Errors5) =
      ConnState.Reconnecting ∧
    ¬(connState (run (connectToSSE (initialMonitor "t0")) c1Errors5) =
        ConnState.Failed ∧
      (run (connectToSSE (initialMonitor "t0")) c1Errors5).reconnectEntries = 4) := by
  decide

/-- C1 (amended): over any episode of `onerror` signals and reconnect
timeouts the attempt counter never exceeds `maxReconnectAttempts`; with the
default cap 5, five consecutive failures yield exactly 5 Reconnecting
entries (attempts 1 through 5) leaving the monitor Reconnecting, and the
sixth consecutive failure exhausts the cap: Failed, still 5 Reconnecting
entries, no further reconnect scheduled. -/
theorem C1_amended (s : MonitorState) (sigs : List MSignal)
    (hsigs : ∀ x ∈ sigs, isErrSig x = true)
    (h : s.reconnectAttempts ≤ s.maxReconnectAttempts) :
    (run s sigs).reconnectAttempts ≤ (run s sigs).maxReconnectAttempts ∧
    (run (connectToSSE (initialMonitor "t0")) c1Errors5).reconnectEntries = 5 ∧
    connState (run (connectToSSE (initialMonitor "t0")) c1Errors5) =
      ConnState.Reconnecting ∧
    (run (connectToSSE (initialMonitor "t0"))
        (c1Errors5 ++ [MSignal.timerFire, MSignal.onError])).failedEntries = 1 ∧
    (run (connectToSSE (initialMonitor "t0"))
        (c1Errors5 ++ [MSignal.timerFire, MSignal.onError])).reconnectEntries = 5 ∧
    connState (run (connectToSSE (initialMonitor "t0"))
        (c1Errors5 ++ [MSignal.timerFire, MSignal.onError])) = ConnState.Failed := by
  exact ⟨run_err_attempts sigs s hsigs h, by decide, by decide, by decide, by decide, by decide⟩

/-- Witness for C1 (amended) on the six-failure episode itself. -/
theorem C1_amended_w :
    (run (initialMonitor "t0") (c1Errors5 ++ [MSignal.timerFire, MSignal.onError])).reconnectAttempts ≤
      (run (initialMonitor "t0") (c1Errors5 ++ [MSignal.timerFire, MSignal.onError])).maxReconnectAttempts ∧
    (run (connectToSSE (initialMonitor "t0")) c1Errors5).reconnectEntries = 5 ∧
    connState (run (connectToSSE (initialMonitor "t0")) c1Errors5) =
      ConnState.Reconnecting ∧
    (run (connectToSSE (initialMonitor "t0"))
        (c1Errors5 ++ [MSignal.timerFire, MSignal.onError])).failedEntries = 1 ∧
    (run (connectToSSE (initialMonitor "t0"))
        (c1Errors5 ++ [MSignal.timerFire, MSignal.onError])).reconnectEntries = 5 ∧
    connState (run (connectToSSE (initialMonitor "t0"))
        (c1Errors5 ++ [MSignal.timerFire, MSignal.onError])) = ConnState.Failed :=
  C1_amended (initialMonitor "t0") (c1Errors5 ++ [MSignal.timerFire, MSignal.onError])
    (by decide) (by decide)

/-- C2 (code bug exhibited): `disconnectSSE` closes the EventSource but the
reconnect `setTimeout` scheduled by a preceding `onerror` is never cancelled
(the source keeps no timer id) and there is no session token; the pending
timeout fires after `stop()`, runs `connectToSSE` again, and the revived
connection delivers an `onopen` that pushes a Connected record into the feed
after the stop. -/
theorem C2_code_bug :
    (run (initialMonitor "t0")
      [MSignal.connect, MSignal.onError, MSignal.stop]).eventSource = false ∧
    (run (initialMonitor "t0")
      [MSignal.connect, MSignal.onError, MSignal.stop]).pendingReconnects = [1000] ∧
    (run (initialMonitor "t0")
      [MSignal.connect, MSignal.onError, MSignal.stop, MSignal.timerFire]).eventSource = true ∧
    connState (run (initialMonitor "t0")
      [MSignal.connect, MSignal.onError, MSignal.stop, MSignal.timerFire,
       MSignal.onOpen]) = ConnState.Open ∧
    (run (initialMonitor "t0")
      [MSignal.connect, MSignal.onError, MSignal.stop, MSignal.timerFire,
       MSignal.onOpen]).activityCount =
      (run (initialMonitor "t0")
        [MSignal.connect, MSignal.onError, MSignal.stop]).activityCount + 1 ∧
    ((run (initialMonitor "t0")
      [MSignal.connect, MSignal.onError, MSignal.stop, MSignal.timerFire,
       MSignal.onOpen]).activityFeed.map ActivityItem.message).head? =
      some "Connected to real-time feed" := by
  decide

/-- C7 counterexample: two consecutive `disconnectSSE` calls do not produce
the observable state of one, because every call pushes one more Disconnected
warning record into the activity feed. -/
theorem C7_counterexample :
    ¬(disconnectSSE (disconnectSSE (run (initialMonitor "t0")
        [MSignal.connect, MSignal.onOpen])) =
      disconnectSSE (run (initialMonitor "t0")
        [MSignal.connect, MSignal.onOpen])) := by
  decide

/-- C7 (amended): `stop()` always succeeds from any state and is idempotent
on the connection state — the EventSource stays closed and disconnected, the
attempt counter and pending timeouts stay put — but not on the feeds: each
call appends one more warning record (`disconnectSSE` a Disconnected item,
`stopAnalysis` a stopped-by-user line), so repeated stops differ exactly in
the logged records. -/
theorem C7_amended (s : MonitorState) (c : ConsoleState) :
    (disconnectSSE s).eventSource = false ∧
    (disconnectSSE s).isConnected = false ∧
    (disconnectSSE (disconnectSSE s)).eventSource = (disconnectSSE s).eventSource ∧
    (disconnectSSE (disconnectSSE s)).isConnected = (disconnectSSE s).isConnected ∧
    (disconnectSSE (disconnectSSE s)).reconnectAttempts = (disconnectSSE s).reconnectAttempts ∧
    (disconnectSSE (disconnectSSE s)).pendingReconnects = (disconnectSSE s).pendingReconnects ∧
    (disconnectSSE (disconnectSSE s)).alertFeed = (disconnectSSE s).alertFeed ∧
    (disconnectSSE (disconnectSSE s)).activityCount = (disconnectSSE s).activityCount + 1 ∧
    (disconnectSSE (disconnectSSE s)).activityFeed.head? =
      some { message := "Disconnected from real-time feed", itemType := "warning",
             detailsLine := none, hashLink := none, timestamp := s.now } ∧
    (stopAnalysis c).isRunning = false ∧
    (stopAnalysis c).eventSource = false ∧
    (stopAnalysis (stopAnalysis c)).isRunning = (stopAnalysis c).isRunning ∧
    (stopAnalysis (stopAnalysis c)).eventSource = (stopAnalysis c).eventSource ∧
    (stopAnalysis (stopAnalysis c)).lines.getLast? =
      some { message := "🛑 Analysis stopped by user", lineType := "warning",
             timestamp := some c.now } := by
  refine ⟨rfl, rfl, rfl, rfl, rfl, rfl, rfl, rfl, ?_, rfl, rfl, rfl, rfl, ?_⟩
  · exact headq_take_cons _ _ _ (by omega)
  · have h := conLog_getLast "🛑 Analysis stopped by user" "warning"
      (setRunning false { stopAnalysis c with eventSource := false }) (by decide)
    simpa [stopAnalysis, setRunning, conLog] using h

/-- C5 counterexample: handling a `complete` frame logs the terminal success
line and clears the running flag but does not close the transport — the
EventSource field is still set afterwards, refuting the claim that the
connection is closed. -/
theorem C5_counterexample :
    (stateOfC (handleStreamData (Json.obj [("type", Json.str "complete")])
      { lines := [], isRunning := true, eventSource := true, now := "t0" })).eventSource = true ∧
    (stateOfC (handleStreamData (Json.obj [("type", Json.str "complete")])
      { lines := [], isRunning := true, eventSource := true, now := "t0" })).isRunning = false ∧
    (stateOfC (handleStreamData (Json.obj [("type", Json.str "complete")])
      { lines := [], isRunning := true, eventSource := true, now := "t0" })).lines =
      [{ message := "✅ Analysis finished successfully", lineType := "success",
         timestamp := some "t0" }] ∧
    ¬((stateOfC (handleStreamData (Json.obj [("type", Json.str "complete")])
      { lines := [], isRunning := true, eventSource := true, now := "t0" })).eventSource = false) := by
  decide

/-- C5 (amended): every `complete` frame and every `error` frame, whatever
else their payloads carry, is handled as a logical terminator — one terminal
record (success, resp. error severity carrying the server text) and the
running flag cleared, with no reconnection machinery in the console at all —
but the EventSource is left open: only `stopAnalysis` or a transport error
path would close or abandon it. -/
theorem C5_amended (c : ConsoleState) (emsg : String)
    (restC restE : List (String × Json)) (hmsg : emsg ≠ "") :
    handleStreamData (Json.obj (("type", Json.str "complete") :: restC)) c =
      Except.ok (setRunning false
        (conLog "✅ Analysis finished successfully" "success" c)) ∧
    handleStreamData
        (Json.obj (("type", Json.str "error") :: ("error", Json.str emsg) :: restE)) c =
      Except.ok (setRunning false (conLog ("❌ Error: " ++ emsg) "error" c)) ∧
    (setRunning false (conLog "✅ Analysis finished successfully" "success" c)).eventSource =
      c.eventSource ∧
    (setRunning false (conLog ("❌ Error: " ++ emsg) "error" c)).eventSource = c.eventSource ∧
    (setRunning false (conLog "✅ Analysis finished successfully" "success" c)).isRunning = false ∧
    (setRunning false (conLog ("❌ Error: " ++ emsg) "error" c)).isRunning = false ∧
    (conLog ("❌ Error: " ++ emsg) "error" c).lines.getLast? =
      some { message := "❌ Error: " ++ emsg, lineType := "error", timestamp := some c.now } ∧
    (conLog "✅ Analysis finished successfully" "success" c).lines.getLast? =
      some { message := "✅ Analysis finished successfully", lineType := "success",
             timestamp := some c.now } := by
  refine ⟨?_, ?_, rfl, rfl, rfl, rfl,
    conLog_getLast _ _ _ (by decide), conLog_getLast _ _ _ (by decide)⟩
  · simp [handleStreamData, jProp, jPropD, lookupField]
  · simp [handleStreamData, jProp, jPropD, lookupField, jTruthyO, jTruthy,
      jsToStringO, jsToString, hmsg]

/-- Witness for C5 (amended) on a running console, a server error text and
extra payload fields on both frames. -/
theorem C5_amended_w :
    handleStreamData (Json.obj (("type", Json.str "complete") ::
        [("timestamp", Json.num 7)]))
        { lines := [], isRunning := true, eventSource := true, now := "t0" } =
      Except.ok (setRunning false (conLog "✅ Analysis finished successfully" "success"
        { lines := [], isRunning := true, eventSource := true, now := "t0" })) ∧
    handleStreamData (Json.obj (("type", Json.str "error") ::
        ("error", Json.str "Analysis failed") :: [("code", Json.num 500)]))
        { lines := [], isRunning := true, eventSource := true, now := "t0" } =
      Except.ok (setRunning false (conLog ("❌ Error: " ++ "Analysis failed") "error"
        { lines := [], isRunning := true, eventSource := true, now := "t0" })) ∧
    (setRunning false (conLog "✅ Analysis finished successfully" "success"
      { lines := [], isRunning := true, eventSource := true, now := "t0" })).eventSource = true ∧
    (setRunning false (conLog ("❌ Error: " ++ "Analysis failed") "error"
      { lines := [], isRunning := true, eventSource := true, now := "t0" })).eventSource = true ∧
    (setRunning false (conLog "✅ Analysis finished successfully" "success"
      { lines := [], isRunning := true, eventSource := true, now := "t0" })).isRunning = false ∧
    (setRunning false (conLog ("❌ Error: " ++ "Analysis failed") "error"
      { lines := [], isRunning := true, eventSource := true, now := "t0" })).isRunning = false ∧
    (conLog ("❌ Error: " ++ "Analysis failed") "error"
      { lines := [], isRunning := true, eventSource := true, now := "t0" }).lines.getLast? =
      some { message := "❌ Error: " ++ "Analysis failed", lineType := "error",
             timestamp := some "t0" } ∧
    (conLog "✅ Analysis finished successfully" "success"
      { lines := [], isRunning := true, eventSource := true, now := "t0" }).lines.getLast? =
      some { message := "✅ Analysis finished successfully", lineType := "success",
             timestamp := some "t0" } :=
  C5_amended { lines := [], isRunning := true, eventSource := true, now := "t0" }
    "Analysis failed" [("timestamp", Json.num 7)] [("code", Json.num 500)] (by decide)

/-- C6 counterexample: on the unparseable frame the Monitor pushes no
activity record at all (its catch only calls `console.error`), and the
console pushes one record at error severity, not debug; the connection state
itself stays Open. -/
theorem C6_counterexample :
    onMessageStep (Except.error "Unexpected token o in JSON at position 1")
        (run (initialMonitor "t0") [MSignal.connect, MSignal.onOpen]) =
      run (initialMonitor "t0") [MSignal.connect, MSignal.onOpen] ∧
    connState (onMessageStep (Except.error "Unexpected token o in JSON at position 1")
        (run (initialMonitor "t0") [MSignal.connect, MSignal.onOpen])) = ConnState.Open ∧
    (conOnMessage (Except.error "Unexpected token o in JSON at position 1")
        (initialConsole "t0")).lines.length = (initialConsole "t0").lines.length + 1 ∧
    ((conOnMessage (Except.error "Unexpected token o in JSON at position 1")
        (initialConsole "t0")).lines.getLast?.map ConsoleLine.lineType) = some "error" ∧
    ¬(((conOnMessage (Except.error "Unexpected token o in JSON at position 1")
        (initialConsole "t0")).lines.getLast?.map ConsoleLine.lineType) = some "debug") := by
  decide

/-- C6 (amended): a parse failure never escapes the onmessage boundary and
the connection state is untouched; but the Monitor pushes no record at all
for it (browser console only), while the analysis console pushes exactly one
record at error severity carrying the parse error text, not a debug
record. -/
theorem C6_amended (e : String) (s : MonitorState) (c : ConsoleState) :
    onMessageStep (Except.error e) s = s ∧
    conOnMessage (Except.error e) c = conLog ("❌ Parse error: " ++ e) "error" c ∧
    (conLog ("❌ Parse error: " ++ e) "error" c).isRunning = c.isRunning ∧
    (conLog ("❌ Parse error: " ++ e) "error" c).eventSource = c.eventSource ∧
    (conLog ("❌ Parse error: " ++ e) "error" c).lines.getLast? =
      some { message := "❌ Parse error: " ++ e, lineType := "error",
             timestamp := some c.now } :=
  ⟨rfl, rfl, rfl, rfl, conLog_getLast _ _ _ (by decide)⟩

/-- A frame with an unrecognized discriminant, the C8 counterexample
input. -/
def c8Frame : Json :=
  Json.obj [("type", Json.str "mystery"), ("payload", Json.str "x")]

/-- C8 counterexample: on a frame with unrecognized type the Monitor switch
falls into a default branch that only calls `console.log` — nothing is
surfaced into either feed, refuting the claim for the Monitor (the console
half of the claim does hold and is proven in the amendment). -/
theorem C8_counterexample :
    isOkM (handleSSEData c8Frame
      (run (initialMonitor "t0") [MSignal.connect, MSignal.onOpen])) = true ∧
    stateOfM (handleSSEData c8Frame
      (run (initialMonitor "t0") [MSignal.connect, MSignal.onOpen])) =
      run (initialMonitor "t0") [MSignal.connect, MSignal.onOpen] ∧
    ¬((stateOfM (handleSSEData c8Frame
        (run (initialMonitor "t0") [MSignal.connect, MSignal.onOpen]))).activityCount =
      (run (initialMonitor "t0") [MSignal.connect, MSignal.onOpen]).activityCount + 1) := by
  decide

/-- C8 (amended): for any frame whose type is a string outside the
recognized sets, the analysis console surfaces exactly one debug-severity
record embedding the JSON-serialized payload verbatim, while the Monitor
pushes nothing into its feeds (the event is visible only on the browser
console). -/
theorem C8_amended (tag : String) (rest : List (String × Json))
    (s : MonitorState) (c : ConsoleState)
    (h1 : tag ≠ "transaction") (h2 : tag ≠ "alert") (h3 : tag ≠ "wallet_update")
    (h4 : tag ≠ "system") (h5 : tag ≠ "progress") (h6 : tag ≠ "results")
    (h7 : tag ≠ "complete") (h8 : tag ≠ "error") :
    handleSSEData (Json.obj (("type", Json.str tag) :: rest)) s = Except.ok s ∧
    handleStreamData (Json.obj (("type", Json.str tag) :: rest)) c =
      Except.ok (conLog ("📡 Received: " ++
        stringify (Json.obj (("type", Json.str tag) :: rest))) "debug" c) ∧
    (conLog ("📡 Received: " ++
        stringify (Json.obj (("type", Json.str tag) :: rest))) "debug" c).lines.getLast? =
      some { message := "📡 Received: " ++
               stringify (Json.obj (("type", Json.str tag) :: rest)),
             lineType := "debug", timestamp := some c.now } := by
  refine ⟨?_, ?_, conLog_getLast _ _ _ (by decide)⟩
  · simp [handleSSEData, jProp, jPropD, lookupField, h1, h2, h3, h4]
  · simp [handleStreamData, jProp, jPropD, lookupField, h5, h6, h7, h8]

/-- Witness for C8 (amended) on the concrete mystery frame. -/
theorem C8_amended_w :
    handleSSEData (Json.obj (("type", Json.str "mystery") :: [("payload", Json.str "x")]))
        (initialMonitor "t0") = Except.ok (initialMonitor "t0") ∧
    handleStreamData (Json.obj (("type", Json.str "mystery") :: [("payload", Json.str "x")]))
        (initialConsole "t0") =
      Except.ok (conLog ("📡 Received: " ++
        stringify (Json.obj (("type", Json.str "mystery") :: [("payload", Json.str "x")])))
        "debug" (initialConsole "t0")) ∧
    (conLog ("📡 Received: " ++
        stringify (Json.obj (("type", Json.str "mystery") :: [("payload", Json.str "x")])))
        "debug" (initialConsole "t0")).lines.getLast? =
      some { message := "📡 Received: " ++
               stringify (Json.obj (("type", Json.str "mystery") :: [("payload", Json.str "x")])),
             lineType := "debug", timestamp := some (initialConsole "t0").now } :=
  C8_amended "mystery" [("payload", Json.str "x")] (initialMonitor "t0")
    (initialConsole "t0") (by decide) (by decide) (by decide) (by decide)
    (by decide) (by decide) (by decide) (by decide)

/-- The progress frame of the specification scenario (no message field). -/
def c9Frame : Json :=
  Json.obj [("type", Json.str "progress"), ("processed", Json.num 3),
            ("total", Json.num 10), ("percentage", Json.num 30)]

/-- C9 counterexample: the scenario progress frame produces exactly one
line referencing 3/10 (30%), but its severity is the `progress` log type
(styled distinctly from `info`), refuting the info-severity half of the
claim. -/
theorem C9_counterexample :
    isOkC (handleStreamData c9Frame (initialConsole "t0")) = true ∧
    (stateOfC (handleStreamData c9Frame (initialConsole "t0"))).lines.length =
      (initialConsole "t0").lines.length + 1 ∧
    (stateOfC (handleStreamData c9Frame (initialConsole "t0"))).lines.getLast? =
      some { message := "📊 Progress: 3/10 (30%)", lineType := "progress",
             timestamp := some "t0" } ∧
    ¬((stateOfC (handleStreamData c9Frame (initialConsole "t0"))).lines.getLast?.map
        ConsoleLine.lineType = some "info") := by
  decide

/-- C9 (amended): the scenario progress frame yields exactly one console
record whose text references 3/10 (30%), logged at the `progress` type
rather than `info` (the message guard is skipped since the frame has no
message field, the wallet guard since it has no wallet_address). -/
theorem C9_amended (c : ConsoleState) :
    handleStreamData c9Frame c =
      Except.ok (conLog "📊 Progress: 3/10 (30%)" "progress" c) ∧
    (conLog "📊 Progress: 3/10 (30%)" "progress" c).lines.getLast? =
      some { message := "📊 Progress: 3/10 (30%)", lineType := "progress",
             timestamp := some c.now } ∧
    (∃ a b : String, "📊 Progress: 3/10 (30%)" = a ++ "3/10 (30%)" ++ b) :=
  ⟨rfl, conLog_getLast _ _ _ (by decide), ⟨"📊 Progress: ", "", by decide⟩⟩

/-- C10 counterexample: a call to `startAnalysis` with out-of-range wallets
made while the console is already running never reaches validation — it
forwards to `stopAnalysis`, flips the running flag and logs a warning, not
an error, refuting the unconditional claim. -/
theorem C10_counterexample :
    startAnalysis "ethereum" "0" "1.0" "buy" (some 0) (some 1)
        { lines := [], isRunning := true, eventSource := true, now := "t0" } =
      stopAnalysis { lines := [], isRunning := true, eventSource := true, now := "t0" } ∧
    (startAnalysis "ethereum" "0" "1.0" "buy" (some 0) (some 1)
        { lines := [], isRunning := true, eventSource := true, now := "t0" }).isRunning = false ∧
    ((startAnalysis "ethereum" "0" "1.0" "buy" (some 0) (some 1)
        { lines := [], isRunning := true, eventSource := true, now := "t0" }).lines.map
      ConsoleLine.lineType) = ["warning"] ∧
    ¬(∃ l ∈ (startAnalysis "ethereum" "0" "1.0" "buy" (some 0) (some 1)
        { lines := [], isRunning := true, eventSource := true, now := "t0" }).lines,
      l.lineType = "error") := by
  decide

/-- C10 (amended): when the console is not already running, an out-of-range
wallets parameter (or, with wallets in range, an out-of-range days
parameter) logs exactly one error-severity line and returns — no EventSource
is created and the running flag and every other field are unchanged. -/
theorem C10_amended (network wv dv atype : String) (wi : Option Int)
    (df : Option Rat) (c : ConsoleState) (hrun : c.isRunning = false) :
    (∀ n : Int, wi = some n → (n < 1 ∨ 500 < n) →
      startAnalysis network wv dv atype wi df c =
        conLog "❌ Wallets must be between 1 and 500" "error" c) ∧
    (∀ q : Rat, df = some q → (numLtI wi 1 || numGtI wi 500) = false →
      (q < 1/10 ∨ 7 < q) →
      startAnalysis network wv dv atype wi df c =
        conLog "❌ Days must be between 0.1 and 7.0" "error" c) ∧
    (conLog "❌ Wallets must be between 1 and 500" "error" c).isRunning = false ∧
    (conLog "❌ Wallets must be between 1 and 500" "error" c).eventSource = c.eventSource ∧
    (conLog "❌ Days must be between 0.1 and 7.0" "error" c).isRunning = false ∧
    (conLog "❌ Days must be between 0.1 and 7.0" "error" c).eventSource = c.eventSource ∧
    (conLog "❌ Wallets must be between 1 and 500" "error" c).lines.getLast? =
      some { message := "❌ Wallets must be between 1 and 500", lineType := "error",
             timestamp := some c.now } ∧
    (conLog "❌ Days must be between 0.1 and 7.0" "error" c).lines.getLast? =
      some { message := "❌ Days must be between 0.1 and 7.0", lineType := "error",
             timestamp := some c.now } := by
  refine ⟨?_, ?_, hrun, rfl, hrun, rfl,
    conLog_getLast _ _ _ (by decide), conLog_getLast _ _ _ (by decide)⟩
  · intro n hn hb
    subst hn
    have hcond : (numLtI (some n) 1 || numGtI (some n) 500) = true := by
      rcases hb with hb | hb <;> simp [numLtI, numGtI, hb]
    simp [startAnalysis, hrun, hcond]
  · intro q hq hw hb
    subst hq
    have hcond : (numLtQ (some q) (1/10) || numGtQ (some q) 7) = true := by
      rcases hb with hb | hb
      · rw [show numLtQ (some q) (1/10) = true from decide_eq_true hb, Bool.true_or]
      · rw [show numGtQ (some q) 7 = true from decide_eq_true hb, Bool.or_true]
    unfold startAnalysis
    rw [hrun, hw, hcond]
    rw [if_neg (by decide : ¬(false = true))]
    rw [if_neg (by decide : ¬(false = true))]
    rw [if_pos (rfl : true = true)]

/-- Witness for C10 (amended) on a fresh console with wallets 0 and days
8. -/
theorem C10_amended_w :
    (∀ n : Int, (some (0 : Int)) = some n → (n < 1 ∨ 500 < n) →
      startAnalysis "ethereum" "0" "8.0" "buy" (some 0) (some 8) (initialConsole "t0") =
        conLog "❌ Wallets must be between 1 and 500" "error" (initialConsole "t0")) ∧
    (∀ q : Rat, (some (8 : Rat)) = some q → (numLtI (some 0) 1 || numGtI (some 0) 500) = false →
      (q < 1/10 ∨ 7 < q) →
      startAnalysis "ethereum" "0" "8.0" "buy" (some 0) (some 8) (initialConsole "t0") =
        conLog "❌ Days must be between 0.1 and 7.0" "error" (initialConsole "t0")) ∧
    (conLog "❌ Wallets must be between 1 and 500" "error" (initialConsole "t0")).isRunning = false ∧
    (conLog "❌ Wallets must be between 1 and 500" "error" (initialConsole "t0")).eventSource =
      (initialConsole "t0").eventSource ∧
    (conLog "❌ Days must be between 0.1 and 7.0" "error" (initialConsole "t0")).isRunning = false ∧
    (conLog "❌ Days must be between 0.1 and 7.0" "error" (initialConsole "t0")).eventSource =
      (initialConsole "t0").eventSource ∧
    (conLog "❌ Wallets must be between 1 and 500" "error" (initialConsole "t0")).lines.getLast? =
      some { message := "❌ Wallets must be between 1 and 500", lineType := "error",
             timestamp := some (initialConsole "t0").now } ∧
    (conLog "❌ Days must be between 0.1 and 7.0" "error" (initialConsole "t0")).lines.getLast? =
      some { message := "❌ Days must be between 0.1 and 7.0", lineType := "error",
             timestamp := some (initialConsole "t0").now } :=
  C10_amended "ethereum" "0" "8.0" "buy" (some 0) (some 8) (initialConsole "t0") (by decide)
